import Mathlib

/-!
Verification development for the slack-invite-request server (src/server.js).

The server is a small Express application: sign-in stores an identity payload
in the session, `GET /apply` renders a form prefilled from the session user,
`POST /apply` relocates uploaded files into the public images directory,
redirects to `/thanks`, and dispatches a Slack webhook notification.

This file shallowly embeds the request handlers of src/server.js as pure Lean
functions and proves properties about them.  External npm collaborators
(lodash, change-case, async, multer) are embedded by their documented
semantics; repository modules that are not part of the given sources
(lib/validate, lib/slack) are modelled from the specification and marked as
such in their doc comments.
-/

/- ===================== Data model (spec section 3, server.js) ===================== -/

/-- One entry of the `emails` sequence of a Google identity payload. -/
structure Email where
  value : String
deriving DecidableEq

/-- Nested `image` object of an identity payload; `url` may be absent. -/
structure UserImage where
  url : Option String
deriving DecidableEq

/-- Identity payload as handed to `POST /signin` and stored in the session.
`emails` is an Option so that a payload whose `emails` property is absent
(JS `undefined`, whose indexing throws) is representable. -/
structure User where
  displayName : String
  emails : Option (List Email)
  url : String
  image : Option UserImage
  kind : String
deriving DecidableEq

/-- Server-side session state: `session.user`, absent until sign-in. -/
abbrev Session := Option User

/-- Uploaded file descriptor as produced by multer: in `req.files` the key of
each entry equals the `fieldname` of the stored file object. -/
structure UploadedFile where
  fieldname : String
  name : String
  tmpPath : String
  size : Nat
deriving DecidableEq

/-- Uploaded file after the rename loop of `POST /apply` assigned `dest` and
`uri` into it (lodash assign in server.js lines 181 to 184). -/
structure RelocatedFile where
  fieldname : String
  name : String
  tmpPath : String
  size : Nat
  dest : String
  uri : String
deriving DecidableEq

/- ===================== Startup environment checks (server.js lines 42 to 63) ===================== -/

/-- Environment variables the server reads at startup. -/
structure Env where
  gaToken : Option String
  slackWebhookUrl : Option String
  googleClientId : Option String
  slackChannel : Option String
  slackBotName : Option String
deriving DecidableEq

/-- JS truthiness of an environment variable: `undefined` and the empty
string are falsy. -/
def falsyEnv : Option String → Bool
  | none => true
  | some s => s = ""

/-- Outcome of the startup sequence: either `exitWithError` ran (console.error
then process.exit(1)) or the server proceeds with the derived configuration. -/
inductive StartupResult where
  | exitWithError (msg : String)
  | started (channel : Option String) (botName : String)
deriving DecidableEq

/-- Startup checks of server.js lines 42 to 63: `gaToken`, `slackUrl` and
`clientId` are each tested for truthiness and a missing one aborts via
`exitWithError`; `channel` is read but never tested; `botName` defaults to
the string SIR when falsy. -/
def startup (e : Env) : StartupResult :=
  if falsyEnv e.gaToken then
    .exitWithError "Please set GA_TOKEN environment variable."
  else if falsyEnv e.slackWebhookUrl then
    .exitWithError "Please set SLACK_WEBHOOK_URL environment variable."
  else if falsyEnv e.googleClientId then
    .exitWithError "Please set GOOGLE_CLIENTID environment variable."
  else
    .started e.slackChannel
      (match e.slackBotName with
       | none => "SIR"
       | some b => if b = "" then "SIR" else b)

/- ===================== POST /signin (server.js lines 143 to 153) ===================== -/

/-- Result of the sign-in handler: the HTTP status sent and the session
state after the handler ran. -/
structure SigninResult where
  status : Nat
  newSession : Session
deriving DecidableEq

/-- POST /signin handler: reads `body.user`; when it is present with
`kind === "plus#person"` it is stored verbatim as `session.user` and 200 is
sent, otherwise 401 is sent and the session is left untouched. -/
def signinHandler (bodyUser : Option User) (sess : Session) : SigninResult :=
  match bodyUser with
  | some u => if u.kind = "plus#person" then ⟨200, some u⟩ else ⟨401, sess⟩
  | none => ⟨401, sess⟩

/- ===================== Upload relocation (server.js lines 175 to 187) ===================== -/

/-- Rename-job construction of the `POST /apply` for-loop: the destination is
`__dirname + /public/images/ + field + - + name` and the public URI is
`req.originUri + /images/ + field + - + name`; both depend only on the
directory, origin, field name and original filename. -/
def relocate (dirname origin : String) (f : UploadedFile) : RelocatedFile :=
  let filename := f.fieldname ++ "-" ++ f.name
  { fieldname := f.fieldname
    name := f.name
    tmpPath := f.tmpPath
    size := f.size
    dest := dirname ++ "/public/images/" ++ filename
    uri := origin ++ "/images/" ++ filename }

/-- The icon URL of the notification (server.js line 200): the request origin
concatenated with the literal `images/bot.png`, with no separator inserted. -/
def iconUrl (origin : String) : String := origin ++ "images/bot.png"

/- ===================== Title casing (change-case title, as used on field names) ===================== -/

/-- Splits a camelCase identifier into its words: a new word starts at every
upper-case character.  Embeds the word-splitting of the change-case `title`
conversion for the alphabetic camelCase field names this form uses. -/
def splitCamel : List Char → List Char → List (List Char)
  | [], acc => if acc.isEmpty then [] else [acc.reverse]
  | c :: cs, acc =>
      if c.isUpper && !acc.isEmpty then acc.reverse :: splitCamel cs [c]
      else splitCamel cs (c :: acc)

/-- Capitalizes one word: first character upper-cased, rest lower-cased. -/
def capitalizeWord : List Char → List Char
  | [] => []
  | c :: cs => c.toUpper :: cs.map Char.toLower

/-- changeCase.title as applied to form field names: split the camelCase name
into words, capitalize each word, join with single spaces
(for example fullName becomes Full Name). -/
def titleCase (s : String) : String :=
  String.intercalate " " ((splitCamel s.data []).map fun w => String.mk (capitalizeWord w))

/- ===================== Notification formatting (server.js lines 197 to 230) ===================== -/

/-- One title/value entry of the Slack attachment `fields` array. -/
structure AttachmentField where
  title : String
  value : String
  short : Bool
deriving DecidableEq

/-- The single attachment of the notification message. -/
structure Attachment where
  fallback : String
  author_name : String
  author_link : String
  author_icon : Option String
  color : String
  pretext : String
  text : Option String
  fields : List AttachmentField
deriving DecidableEq

/-- The JSON payload posted to the Slack webhook. -/
structure SlackPayload where
  channel : Option String
  username : String
  icon_url : String
  attachments : List Attachment
deriving DecidableEq

/-- The parsed request body as an ordered list of name/value pairs.  The spec
notes the code relies on field iteration order of the body object; the order
of this list is that iteration order. -/
abbrev Body := List (String × String)

/-- lodash omit of one key followed by pairs: the name/value pairs of the
body in original order with every pair named `k` removed. -/
def omitKey (k : String) (b : Body) : Body := b.filter fun p => p.1 ≠ k

/-- The lodash flow applied to each non-comment pair: title-case the name
(index 0), keep the value (index 1), zip into title/value, assign short. -/
def textFieldEntry (p : String × String) : AttachmentField :=
  { title := titleCase p.1, value := p.2, short := true }

/-- The mapping applied to each uploaded file: title is the fieldname and the
value is a Slack link to the public URI of the relocated file. -/
def fileFieldEntry (f : RelocatedFile) : AttachmentField :=
  { title := f.fieldname, value := "<" ++ f.uri ++ "|View>", short := true }

/-- The attachment `text`: the comments body field quoted when truthy
(present and nonempty), `undefined` otherwise. -/
def commentsText (b : Body) : Option String :=
  match b.lookup "comments" with
  | none => none
  | some c => if c = "" then none else some ("\"" ++ c ++ "\"")

/-- The notification payload built by `POST /apply` (server.js lines 197 to
230) from the session user, the body pairs and the relocated files. -/
def buildSlackPayload (channel : Option String) (botName origin : String) (user : User)
    (body : Body) (files : List RelocatedFile) : SlackPayload :=
  { channel := channel
    username := botName
    icon_url := iconUrl origin
    attachments := [
      { fallback := user.displayName ++ " wants to join Slack"
        author_name := user.displayName
        author_link := user.url
        author_icon := user.image.bind UserImage.url
        color := "#28f428"
        pretext := "New invite request:"
        text := commentsText body
        fields := (omitKey "comments" body).map textFieldEntry ++ files.map fileFieldEntry } ] }

/- ===================== Responses, guard, GET routes ===================== -/

/-- Template strings loaded from strings.yml and extended at startup: the
part relevant to the apply form.  `strings.apply.form` holds a fullName and
an email field, each with a mutable `value`. -/
structure FormField where
  value : String
deriving DecidableEq

/-- The `strings.apply.form` object. -/
structure ApplyForm where
  fullName : FormField
  email : FormField
deriving DecidableEq

/-- The process-global `strings.apply` structure (title and gaToken assigned
at startup, plus the form). -/
structure ApplyStrings where
  title : String
  gaToken : String
  form : ApplyForm
deriving DecidableEq

/-- Responses a handler can send to the client. -/
inductive HttpResponse where
  | redirect (loc : String)
  | render (view : String)
  | status (code : Nat)
  | errorPage (code : Nat) (body : String)
deriving DecidableEq

/-- Modelled from the spec: lib/validate is not under src/.  Per the spec the
guard, when the Session Gate returns nothing, responds with a redirect to the
sign-in page and short-circuits. -/
def guardResponse : HttpResponse := .redirect "/signin"

/-- Modelled from the spec: lib/validate is not under src/.  The route guard
wraps a protected handler: without a session identity it sends
`guardResponse` and the handler never runs; with one, control passes through
to the handler unchanged. -/
def validateRoute (sess : Session) (handler : User → HttpResponse) : HttpResponse :=
  match sess with
  | none => guardResponse
  | some u => handler u

/-- Reading `user.emails[0].value` in JS: `none` means the access threw a
TypeError (`emails` absent, or empty so that `emails[0]` is undefined). -/
def firstEmailValue (u : User) : Option String :=
  match u.emails with
  | none => none
  | some [] => none
  | some (e :: _) => some e.value

/-- The catch-all error middleware (server.js lines 234 to 237): a thrown
handler error is logged and answered with status 500 and the body
Internal Server Error. -/
def catchAll (r : Except String HttpResponse) : HttpResponse :=
  match r with
  | .ok resp => resp
  | .error _ => .errorPage 500 "Internal Server Error"

/-- GET /apply handler body (server.js lines 159 to 166), session user `u`
given: first `strings.apply.form.fullName.value` is assigned the display
name; then `user.emails[0].value` is read, which throws when there is no
first email (the fullName write has already happened); on success it is
assigned to `strings.apply.form.email.value` and the apply view is rendered.
Returns the strings structure after the handler together with the outcome. -/
def getApplyHandler (u : User) (s : ApplyStrings) : ApplyStrings × Except String HttpResponse :=
  let s1 := { s with form := { s.form with fullName := { value := u.displayName } } }
  match firstEmailValue u with
  | none => (s1, .error "TypeError: cannot read property value of undefined")
  | some v =>
      let s2 := { s1 with form := { s1.form with email := { value := v } } }
      (s2, .ok (.render "apply"))

/-- GET /apply route: guard, then handler, then the catch-all middleware for
a thrown error.  Returns the global strings after the request and the
response sent. -/
def getApplyRoute (sess : Session) (s : ApplyStrings) : ApplyStrings × HttpResponse :=
  match sess with
  | none => (s, guardResponse)
  | some u =>
      let (s2, r) := getApplyHandler u s
      (s2, catchAll r)

/-- GET /thanks route (server.js lines 155 to 157): guarded render of the
thanks view. -/
def getThanksRoute (sess : Session) : HttpResponse :=
  validateRoute sess fun _ => .render "thanks"

/- ===================== POST /apply: async.parallel and the callback ===================== -/

/-- Outcome of one `mv(tmpPath, dest)` job handed to async.parallel: the time
at which its callback fires and the error it reports (none on success). -/
structure MoveJob where
  time : Nat
  err : Option String
deriving DecidableEq

/-- Time by which every move of the set has completed. -/
def maxCompletionTime (jobs : List MoveJob) : Nat :=
  (jobs.map MoveJob.time).foldr max 0

/-- Picks the earlier of two jobs (the left one on a tie). -/
def earlierJob (a b : MoveJob) : MoveJob := if a.time ≤ b.time then a else b

/-- The first move job to report an error, if any: among the jobs whose
callback reports an error, the one with the least completion time. -/
def firstErrJob (jobs : List MoveJob) : Option MoveJob :=
  match jobs.filter (fun j => j.err.isSome) with
  | [] => none
  | j :: js => some (js.foldr earlierJob j)

/-- async.parallel semantics for the error argument of the final callback:
the error of the first job to fail, or none when every job succeeds. -/
def parallelCallbackErr (jobs : List MoveJob) : Option String :=
  (firstErrJob jobs).bind MoveJob.err

/-- async.parallel semantics for when the final callback runs: immediately at
the first reported error, otherwise once all jobs have completed. -/
def parallelCallbackTime (jobs : List MoveJob) : Nat :=
  match firstErrJob jobs with
  | some j => j.time
  | none => maxCompletionTime jobs

/-- Observable actions of the submission endpoint after the moves. -/
inductive Event where
  | sendStatus (code : Nat)
  | redirect (loc : String)
  | slackDispatch (p : SlackPayload)
  | logError (msg : String)
deriving DecidableEq

/-- Body of the async.parallel final callback (server.js lines 189 to 231):
on an error, log it and send 500 and nothing else; otherwise redirect the
client to /thanks and then dispatch the Slack payload. -/
def applyCallbackEvents (err : Option String) (payload : SlackPayload) : List Event :=
  match err with
  | some m => [.logError m, .sendStatus 500]
  | none => [.redirect "/thanks", .slackDispatch payload]

/-- The callback events of a POST /apply submission whose moves had the given
outcomes. -/
def postApplyCallbackTrace (jobs : List MoveJob) (payload : SlackPayload) : List Event :=
  applyCallbackEvents (parallelCallbackErr jobs) payload

/-- Modelled from the spec: lib/slack is not under src/.  Per the spec, a
delivery failure is only logged; delivery produces no client-visible event
either way. -/
def slackDeliveryEvents (deliveryOk : Bool) : List Event :=
  if deliveryOk then [] else [.logError "slack delivery failed"]

/-- Full event trace of a successful submission: the callback ran without a
move error, then the dispatched notification was delivered with the given
outcome. -/
def applySuccessTrace (payload : SlackPayload) (deliveryOk : Bool) : List Event :=
  applyCallbackEvents none payload ++ slackDeliveryEvents deliveryOk

/-- Whether an event is part of the HTTP response to the client. -/
def isResponseEvent : Event → Bool
  | .sendStatus _ => true
  | .redirect _ => true
  | _ => false

/-- The client-visible response events of a trace. -/
def responseEvents (tr : List Event) : List Event := tr.filter isResponseEvent

/-- Synchronous start of the POST /apply handler (server.js lines 168 to
173): the guard runs first; then the log line reads
`user.emails[0].value`, which throws into the catch-all when there is no
first email; only otherwise does the handler proceed to the rename loop. -/
inductive PostApplyStart where
  | halted (r : HttpResponse)
  | proceeding (logLine : String)
deriving DecidableEq

/-- POST /apply up to the rename loop: guard, then the log-line email access
guarded by the catch-all middleware. -/
def postApplyStart (sess : Session) : PostApplyStart :=
  match sess with
  | none => .halted guardResponse
  | some u =>
      match firstEmailValue u with
      | none => .halted (catchAll (.error "TypeError: cannot read property value of undefined"))
      | some v =>
          .proceeding ("Received application from \"" ++ u.displayName ++ " <" ++ v ++ ">\"")

/- ===================== Theorems ===================== -/

/-- C2: for every POST /signin request, a body user whose kind equals
plus#person is stored verbatim as session.user with response status 200;
otherwise (user absent or kind different) the status is 401 and the session
is not mutated. -/
theorem c2_signin_gate (bodyUser : Option User) (sess : Session) :
    (∀ u, bodyUser = some u → u.kind = "plus#person" →
      signinHandler bodyUser sess = ⟨200, some u⟩) ∧
    (∀ u, bodyUser = some u → u.kind ≠ "plus#person" →
      signinHandler bodyUser sess = ⟨401, sess⟩) ∧
    (bodyUser = none → signinHandler bodyUser sess = ⟨401, sess⟩) := by
  refine ⟨fun u hu hk => ?_, fun u hu hk => ?_, fun hn => ?_⟩ <;>
    subst_vars <;> simp [signinHandler, *]

/-- C2 witness: the sign-in gate evaluated on a recognized payload, a
rejected payload and an absent payload. -/
theorem c2_signin_gate_witness :
    signinHandler (some ⟨"Jane Doe", some [⟨"jane@x.com"⟩], "https://p", none, "plus#person"⟩) none
      = ⟨200, some ⟨"Jane Doe", some [⟨"jane@x.com"⟩], "https://p", none, "plus#person"⟩⟩ ∧
    signinHandler (some ⟨"Mallory", none, "", none, "forged"⟩)
        (some ⟨"Jane Doe", some [⟨"jane@x.com"⟩], "https://p", none, "plus#person"⟩)
      = ⟨401, some ⟨"Jane Doe", some [⟨"jane@x.com"⟩], "https://p", none, "plus#person"⟩⟩ ∧
    signinHandler none none = ⟨401, none⟩ :=
  ⟨(c2_signin_gate (some ⟨"Jane Doe", some [⟨"jane@x.com"⟩], "https://p", none, "plus#person"⟩)
      none).1 _ rfl rfl,
   (c2_signin_gate (some ⟨"Mallory", none, "", none, "forged"⟩)
      (some ⟨"Jane Doe", some [⟨"jane@x.com"⟩], "https://p", none, "plus#person"⟩)).2.1 _ rfl
      (by decide),
   (c2_signin_gate none none).2.2 rfl⟩

/-- C3: a GET request to /apply or /thanks without a session identity gets
the guard redirect and the protected handler never runs (the outcome does
not depend on the handler and the global strings are untouched); with an
identity present, control passes through to the handler unchanged. -/
theorem c3_guard_short_circuit :
    (∀ h1 h2 : User → HttpResponse, validateRoute none h1 = validateRoute none h2) ∧
    (∀ h : User → HttpResponse, validateRoute none h = guardResponse) ∧
    (∀ (u : User) (h : User → HttpResponse), validateRoute (some u) h = h u) ∧
    (∀ s : ApplyStrings, getApplyRoute none s = (s, guardResponse)) ∧
    getThanksRoute none = guardResponse ∧
    (∀ u : User, getThanksRoute (some u) = .render "thanks") :=
  ⟨fun _ _ => rfl, fun _ => rfl, fun _ _ => rfl, fun _ => rfl, rfl, fun _ => rfl⟩

/-- C5: the relocation destination is the public images directory plus the
field name, a hyphen and the original filename; the public URI is the origin
plus the public path prefix plus that same filename; and any two uploads
with the same field name and filename get the identical destination path,
whatever their temporary paths or sizes. -/
theorem c5_relocation_deterministic (dirname origin : String) (f g : UploadedFile)
    (hfield : g.fieldname = f.fieldname) (hname : g.name = f.name) :
    (relocate dirname origin f).dest
      = dirname ++ "/public/images/" ++ (f.fieldname ++ "-" ++ f.name) ∧
    (relocate dirname origin f).uri
      = origin ++ "/images/" ++ (f.fieldname ++ "-" ++ f.name) ∧
    (relocate dirname origin g).dest = (relocate dirname origin f).dest := by
  simp [relocate, hfield, hname]

/-- C5 witness: two uploads of resume-cv.pdf from different temporary paths
land on the same destination. -/
theorem c5_relocation_deterministic_witness :
    (relocate "/srv/app" "https://h" ⟨"resume", "cv.pdf", "/tmp/u1", 10⟩).dest
      = "/srv/app" ++ "/public/images/" ++ ("resume" ++ "-" ++ "cv.pdf") ∧
    (relocate "/srv/app" "https://h" ⟨"resume", "cv.pdf", "/tmp/u1", 10⟩).uri
      = "https://h" ++ "/images/" ++ ("resume" ++ "-" ++ "cv.pdf") ∧
    (relocate "/srv/app" "https://h" ⟨"resume", "cv.pdf", "/tmp/u2", 99⟩).dest
      = (relocate "/srv/app" "https://h" ⟨"resume", "cv.pdf", "/tmp/u1", 10⟩).dest :=
  c5_relocation_deterministic "/srv/app" "https://h"
    ⟨"resume", "cv.pdf", "/tmp/u1", 10⟩ ⟨"resume", "cv.pdf", "/tmp/u2", 99⟩ rfl rfl

/-- C7 counterexample: with GA_TOKEN, SLACK_WEBHOOK_URL and GOOGLE_CLIENTID
set but SLACK_CHANNEL absent, startup does not exit: it proceeds to serving
with channel none, refuting that every required value (including the chat
channel name) is checked. -/
theorem c7_channel_not_checked :
    falsyEnv (Env.slackChannel ⟨some "ga", some "https://hooks", some "cid", none, none⟩) = true ∧
    startup ⟨some "ga", some "https://hooks", some "cid", none, none⟩
      = .started none "SIR" := by
  decide

/-- C7 (amended): startup exits with a logged message exactly for a falsy
GA_TOKEN, SLACK_WEBHOOK_URL or GOOGLE_CLIENTID, checked in that order; when
those three are truthy the server starts whatever the channel value is. -/
theorem c7_startup_checks (e : Env) :
    (falsyEnv e.gaToken = true →
      startup e = .exitWithError "Please set GA_TOKEN environment variable.") ∧
    (falsyEnv e.gaToken = false → falsyEnv e.slackWebhookUrl = true →
      startup e = .exitWithError "Please set SLACK_WEBHOOK_URL environment variable.") ∧
    (falsyEnv e.gaToken = false → falsyEnv e.slackWebhookUrl = false →
      falsyEnv e.googleClientId = true →
      startup e = .exitWithError "Please set GOOGLE_CLIENTID environment variable.") ∧
    (falsyEnv e.gaToken = false → falsyEnv e.slackWebhookUrl = false →
      falsyEnv e.googleClientId = false →
      ∀ m, startup e ≠ .exitWithError m) := by
  refine ⟨fun h1 => ?_, fun h1 h2 => ?_, fun h1 h2 h3 => ?_, fun h1 h2 h3 m => ?_⟩ <;>
    simp [startup, *]

/-- C7 witness: a missing GA_TOKEN aborts startup, and a configuration with
the three checked values present never aborts, even with the channel absent. -/
theorem c7_startup_checks_witness :
    startup ⟨none, some "https://hooks", some "cid", some "general", none⟩
      = .exitWithError "Please set GA_TOKEN environment variable." ∧
    ∀ m, startup ⟨some "ga", some "https://hooks", some "cid", none, none⟩
      ≠ .exitWithError m :=
  ⟨(c7_startup_checks ⟨none, some "https://hooks", some "cid", some "general", none⟩).1
      (by decide),
   (c7_startup_checks ⟨some "ga", some "https://hooks", some "cid", none, none⟩).2.2.2
      (by decide) (by decide) (by decide)⟩

/-- C9: the notification icon URL is the origin concatenated directly with
images/bot.png, a suffix whose first character is not the path separator,
while every relocated file URI inserts the separator and then images/
between the origin and the filename. -/
theorem c9_icon_url_no_separator (origin dirname : String) (f : UploadedFile) :
    iconUrl origin = origin ++ "images/bot.png" ∧
    "images/bot.png".data.head? = some (Char.ofNat 105) ∧
    (Char.ofNat 105 = Char.ofNat 47) = False ∧
    "/".data.head? = some (Char.ofNat 47) ∧
    (relocate dirname origin f).uri
      = origin ++ ("/" ++ ("images/" ++ (f.fieldname ++ "-" ++ f.name))) := by
  refine ⟨rfl, by decide, by simp, by decide, ?_⟩
  show origin ++ "/images/" ++ (f.fieldname ++ "-" ++ f.name)
      = origin ++ ("/" ++ ("images/" ++ (f.fieldname ++ "-" ++ f.name)))
  rw [String.append_assoc]
  congr 1

/-- C6: for a submission whose moves all succeed, the redirect to /thanks is
the first event and strictly precedes the notification dispatch; the
client-visible response events are the redirect alone, whatever the delivery
outcome, so a delivery failure never changes the response. -/
theorem c6_redirect_before_notification (jobs : List MoveJob) (p : SlackPayload)
    (deliveryOk : Bool) (h : parallelCallbackErr jobs = none) :
    postApplyCallbackTrace jobs p ++ slackDeliveryEvents deliveryOk
      = applySuccessTrace p deliveryOk ∧
    (applySuccessTrace p deliveryOk)[0]? = some (.redirect "/thanks") ∧
    (applySuccessTrace p deliveryOk)[1]? = some (.slackDispatch p) ∧
    responseEvents (applySuccessTrace p deliveryOk) = [.redirect "/thanks"] ∧
    responseEvents (applySuccessTrace p true) = responseEvents (applySuccessTrace p false) := by
  refine ⟨?_, ?_, ?_, ?_, ?_⟩
  · simp [postApplyCallbackTrace, h, applySuccessTrace]
  · cases deliveryOk <;> rfl
  · cases deliveryOk <;> rfl
  · cases deliveryOk <;> rfl
  · rfl

/-- C6 witness: the success trace of a one-move submission whose delivery
fails still answers the client with the redirect alone. -/
theorem c6_redirect_before_notification_witness :
    postApplyCallbackTrace [⟨3, none⟩] ⟨none, "SIR", "u", []⟩ ++ slackDeliveryEvents false
      = applySuccessTrace ⟨none, "SIR", "u", []⟩ false ∧
    responseEvents (applySuccessTrace ⟨none, "SIR", "u", []⟩ false)
      = [.redirect "/thanks"] :=
  ⟨(c6_redirect_before_notification [⟨3, none⟩] ⟨none, "SIR", "u", []⟩ false rfl).1,
   (c6_redirect_before_notification [⟨3, none⟩] ⟨none, "SIR", "u", []⟩ false rfl).2.2.2.1⟩

/-- C8 counterexample: handling one GET /apply request changes the
process-global template strings structure, refuting that no handler mutates
cross-request shared state beyond the session store and rate limiter. -/
theorem c8_get_apply_mutates_strings :
    (getApplyHandler ⟨"Jane Doe", some [⟨"jane@x.com"⟩], "https://p", none, "plus#person"⟩
        ⟨"t", "ga", ⟨⟨""⟩, ⟨""⟩⟩⟩).1 ≠ ⟨"t", "ga", ⟨⟨""⟩, ⟨""⟩⟩⟩ := by
  decide

/-- C8 (amended): GET /apply does mutate the process-global strings
structure: it overwrites the fullName form value with the session user
display name and, when a first email exists, the email form value with it
(on a missing first email only the fullName write happens before the
throw); the title and gaToken parts are left unchanged. -/
theorem c8_shared_state_mutation (u : User) (s : ApplyStrings) :
    (∀ v, firstEmailValue u = some v →
      (getApplyHandler u s).1
        = { s with form := { fullName := ⟨u.displayName⟩, email := ⟨v⟩ } }) ∧
    (firstEmailValue u = none →
      (getApplyHandler u s).1
        = { s with form := { s.form with fullName := ⟨u.displayName⟩ } }) ∧
    ((getApplyHandler u s).1).title = s.title ∧
    ((getApplyHandler u s).1).gaToken = s.gaToken := by
  refine ⟨fun v hv => ?_, fun hn => ?_, ?_, ?_⟩
  · simp [getApplyHandler, hv]
  · simp [getApplyHandler, hn]
  · cases hfe : firstEmailValue u <;> simp [getApplyHandler, hfe]
  · cases hfe : firstEmailValue u <;> simp [getApplyHandler, hfe]

/-- C8 witness: the concrete strings structure after one GET /apply request
holds the Jane Doe values. -/
theorem c8_shared_state_mutation_witness :
    (getApplyHandler ⟨"Jane Doe", some [⟨"jane@x.com"⟩], "https://p", none, "plus#person"⟩
        ⟨"t", "ga", ⟨⟨""⟩, ⟨""⟩⟩⟩).1
      = ⟨"t", "ga", ⟨⟨"Jane Doe"⟩, ⟨"jane@x.com"⟩⟩⟩ :=
  (c8_shared_state_mutation
      ⟨"Jane Doe", some [⟨"jane@x.com"⟩], "https://p", none, "plus#person"⟩
      ⟨"t", "ga", ⟨⟨""⟩, ⟨""⟩⟩⟩).1 "jane@x.com" rfl

/-- C10: with a session identity whose emails sequence is absent or empty,
the GET /apply handler throw lands in the catch-all middleware and the
client gets the generic 500 page, and the POST /apply handler halts the same
way before any file handling. -/
theorem c10_missing_emails_500 (u : User) (s : ApplyStrings)
    (h : u.emails = none ∨ u.emails = some []) :
    (getApplyRoute (some u) s).2 = .errorPage 500 "Internal Server Error" ∧
    postApplyStart (some u) = .halted (.errorPage 500 "Internal Server Error") := by
  have hfe : firstEmailValue u = none := by
    rcases h with h | h <;> simp [firstEmailValue, h]
  constructor
  · simp [getApplyRoute, getApplyHandler, hfe, catchAll]
  · simp [postApplyStart, hfe, catchAll]

/-- C10 witness: a signed-in identity with an empty emails sequence gets the
500 page from both apply routes. -/
theorem c10_missing_emails_500_witness :
    (getApplyRoute (some ⟨"Ghost", some [], "", none, "plus#person"⟩)
        ⟨"t", "ga", ⟨⟨""⟩, ⟨""⟩⟩⟩).2 = .errorPage 500 "Internal Server Error" ∧
    postApplyStart (some ⟨"Ghost", some [], "", none, "plus#person"⟩)
      = .halted (.errorPage 500 "Internal Server Error") :=
  c10_missing_emails_500 ⟨"Ghost", some [], "", none, "plus#person"⟩
    ⟨"t", "ga", ⟨⟨""⟩, ⟨""⟩⟩⟩ (Or.inr rfl)

/- ===================== Helper lemmas for the async.parallel model ===================== -/

theorem earlierJob_time_le_left (a b : MoveJob) : (earlierJob a b).time ≤ a.time := by
  unfold earlierJob
  split <;> omega

theorem earlierJob_time_le_right (a b : MoveJob) : (earlierJob a b).time ≤ b.time := by
  unfold earlierJob
  split <;> omega

theorem earlierJob_eq_or (a b : MoveJob) : earlierJob a b = a ∨ earlierJob a b = b := by
  unfold earlierJob
  split
  · exact Or.inl rfl
  · exact Or.inr rfl

theorem foldr_earlierJob_mem (j : MoveJob) (js : List MoveJob) :
    js.foldr earlierJob j ∈ j :: js := by
  induction js with
  | nil => exact List.mem_singleton.mpr rfl
  | cons a as ih =>
      have hfold : (a :: as).foldr earlierJob j = earlierJob a (as.foldr earlierJob j) := rfl
      rw [hfold]
      rcases earlierJob_eq_or a (as.foldr earlierJob j) with h | h <;> rw [h]
      · exact List.mem_cons_of_mem j (List.mem_cons_self a as)
      · rcases List.mem_cons.mp ih with h2 | h2
        · rw [h2]; exact List.mem_cons_self j (a :: as)
        · exact List.mem_cons_of_mem j (List.mem_cons_of_mem a h2)

theorem foldr_earlierJob_le (j : MoveJob) (js : List MoveJob) :
    ∀ k ∈ j :: js, (js.foldr earlierJob j).time ≤ k.time := by
  induction js with
  | nil =>
      intro k hk
      rw [List.mem_singleton] at hk
      rw [hk]
      exact Nat.le_refl _
  | cons a as ih =>
      intro k hk
      have hfold : ((a :: as).foldr earlierJob j) = earlierJob a (as.foldr earlierJob j) := rfl
      rw [hfold]
      rcases List.mem_cons.mp hk with hkj | hk2
      · rw [hkj]
        exact le_trans (earlierJob_time_le_right a _) (ih j (List.mem_cons_self j as))
      · rcases List.mem_cons.mp hk2 with hka | hkas
        · rw [hka]
          exact earlierJob_time_le_left a _
        · exact le_trans (earlierJob_time_le_right a _) (ih k (List.mem_cons_of_mem j hkas))

/-- C4 counterexample: with one move failing at time 1 while another is
still running until time 5, async.parallel invokes the callback at time 1,
strictly before the whole set of moves has completed — refuting that the
response is sent only after a join over all moves. -/
theorem c4_not_a_join_on_failure :
    (∃ j ∈ [MoveJob.mk 5 none, MoveJob.mk 1 (some "EACCES")], j.err ≠ none) ∧
    parallelCallbackTime [MoveJob.mk 5 none, MoveJob.mk 1 (some "EACCES")]
      < maxCompletionTime [MoveJob.mk 5 none, MoveJob.mk 1 (some "EACCES")] := by
  decide

/-- C4 (amended): when at least one move fails, the callback receives the
error of the first move to fail, the client gets 500 and nothing else (no
redirect, no notification dispatch, no further filesystem action), and the
response is dispatched at the completion time of that first failing move —
possibly before the remaining moves have finished, with no rollback of the
moves already done. -/
theorem c4_move_failure (jobs : List MoveJob) (p : SlackPayload)
    (h : ∃ j ∈ jobs, j.err ≠ none) :
    (∃ m, parallelCallbackErr jobs = some m ∧
      postApplyCallbackTrace jobs p = [.logError m, .sendStatus 500]) ∧
    Event.sendStatus 500 ∈ postApplyCallbackTrace jobs p ∧
    (∀ l, Event.redirect l ∉ postApplyCallbackTrace jobs p) ∧
    (∀ q, Event.slackDispatch q ∉ postApplyCallbackTrace jobs p) ∧
    (∃ j, firstErrJob jobs = some j ∧ j ∈ jobs ∧ j.err ≠ none ∧
      parallelCallbackTime jobs = j.time ∧
      ∀ k ∈ jobs, k.err ≠ none → j.time ≤ k.time) := by
  obtain ⟨j0, hj0mem, hj0err⟩ := h
  have hfilne : jobs.filter (fun j => j.err.isSome) ≠ [] := by
    intro hnil
    have hall := List.filter_eq_nil_iff.mp hnil j0 hj0mem
    simp only [Option.isSome_iff_ne_none] at hall
    exact hall hj0err
  rcases hfil : jobs.filter (fun j => j.err.isSome) with _ | ⟨a, as⟩
  · exact absurd hfil hfilne
  · have hfirst : firstErrJob jobs = some (as.foldr earlierJob a) := by
      simp [firstErrJob, hfil]
    have hrmem_fil : as.foldr earlierJob a ∈ jobs.filter (fun j => j.err.isSome) := by
      rw [hfil]; exact foldr_earlierJob_mem a as
    obtain ⟨hrmem, hrp⟩ := List.mem_filter.mp hrmem_fil
    obtain ⟨m, hm⟩ := Option.isSome_iff_exists.mp hrp
    have herr : parallelCallbackErr jobs = some m := by
      simp [parallelCallbackErr, hfirst, hm]
    have htrace : postApplyCallbackTrace jobs p = [.logError m, .sendStatus 500] := by
      simp [postApplyCallbackTrace, herr, applyCallbackEvents]
    refine ⟨⟨m, herr, htrace⟩, ?_, ?_, ?_,
      ⟨as.foldr earlierJob a, hfirst, hrmem, ?_, ?_, ?_⟩⟩
    · rw [htrace]; simp
    · intro l; rw [htrace]; simp
    · intro q; rw [htrace]; simp
    · simp [hm]
    · simp [parallelCallbackTime, hfirst]
    · intro k hkmem hkerr
      have hkfil : k ∈ jobs.filter (fun j => j.err.isSome) :=
        List.mem_filter.mpr ⟨hkmem, by simpa [Option.isSome_iff_ne_none] using hkerr⟩
      rw [hfil] at hkfil
      exact foldr_earlierJob_le a as k hkfil

/-- C4 witness: the amended theorem evaluated on the two-move set of the
counterexample. -/
theorem c4_move_failure_witness :
    Event.sendStatus 500 ∈ postApplyCallbackTrace
        [MoveJob.mk 5 none, MoveJob.mk 1 (some "EACCES")] ⟨none, "SIR", "u", []⟩ ∧
    (∀ l, Event.redirect l ∉ postApplyCallbackTrace
        [MoveJob.mk 5 none, MoveJob.mk 1 (some "EACCES")] ⟨none, "SIR", "u", []⟩) ∧
    (∀ q, Event.slackDispatch q ∉ postApplyCallbackTrace
        [MoveJob.mk 5 none, MoveJob.mk 1 (some "EACCES")] ⟨none, "SIR", "u", []⟩) := by
  have h := c4_move_failure [MoveJob.mk 5 none, MoveJob.mk 1 (some "EACCES")]
      ⟨none, "SIR", "u", []⟩ ⟨MoveJob.mk 1 (some "EACCES"), by decide, by decide⟩
  exact ⟨h.2.1, h.2.2.1, h.2.2.2.1⟩

/-- C1: the notification built from a submission has a single attachment
whose fields are exactly the non-comment body pairs in original order (title
the Title-Cased field name, value unchanged) followed by one entry per
uploaded file in upload order (title the fieldname, value a Slack link to
the public URI of the relocated file). -/
theorem c1_notification_fields (channel : Option String) (botName origin dirname : String)
    (user : User) (body : Body) (uploads : List UploadedFile) :
    ∃ att,
      (buildSlackPayload channel botName origin user body
          (uploads.map (relocate dirname origin))).attachments = [att] ∧
      att.fields.length = (omitKey "comments" body).length + uploads.length ∧
      (∀ i (hi : i < (omitKey "comments" body).length),
        att.fields[i]?
          = some { title := titleCase ((omitKey "comments" body)[i].1)
                   value := ((omitKey "comments" body)[i]).2
                   short := true }) ∧
      (∀ j (hj : j < uploads.length),
        att.fields[(omitKey "comments" body).length + j]?
          = some { title := (uploads[j]).fieldname
                   value := "<" ++ (relocate dirname origin (uploads[j])).uri ++ "|View>"
                   short := true }) := by
  refine ⟨_, rfl, ?_, ?_, ?_⟩
  · simp [buildSlackPayload]
  · intro i hi
    have hi2 : i < ((omitKey "comments" body).map textFieldEntry).length := by
      simpa using hi
    simp [buildSlackPayload, List.getElem?_append_left hi2, List.getElem?_map,
      List.getElem?_eq_getElem hi, textFieldEntry]
  · intro j hj
    have hge : ((omitKey "comments" body).map textFieldEntry).length
        ≤ (omitKey "comments" body).length + j := by
      simp
    simp [buildSlackPayload, List.getElem?_append_right hge, List.getElem?_map,
      List.getElem?_eq_getElem hj, fileFieldEntry, relocate]

/-- C1 witness: the end-to-end example submission with fullName, a comments
field and one resume upload yields three field entries: Full Name, Email and
the resume link. -/
theorem c1_notification_fields_witness :
    ∃ att,
      (buildSlackPayload (some "general") "SIR" "https://h"
          ⟨"Jane Doe", some [⟨"jane@x.com"⟩], "https://p", none, "plus#person"⟩
          [("fullName", "Jane Doe"), ("comments", "hi"), ("email", "jane@x.com")]
          ([⟨"resume", "cv.pdf", "/tmp/u1", 10⟩].map (relocate "/srv" "https://h"))).attachments
        = [att] ∧
      att.fields.length = 3 ∧
      att.fields[0]? = some ⟨"Full Name", "Jane Doe", true⟩ ∧
      att.fields[1]? = some ⟨"Email", "jane@x.com", true⟩ ∧
      att.fields[2]? = some ⟨"resume", "<https://h/images/resume-cv.pdf|View>", true⟩ := by
  obtain ⟨att, hatt, hlen, htext, hfile⟩ :=
    c1_notification_fields (some "general") "SIR" "https://h" "/srv"
      ⟨"Jane Doe", some [⟨"jane@x.com"⟩], "https://p", none, "plus#person"⟩
      [("fullName", "Jane Doe"), ("comments", "hi"), ("email", "jane@x.com")]
      [⟨"resume", "cv.pdf", "/tmp/u1", 10⟩]
  exact ⟨att, hatt, hlen, htext 0 (by decide), htext 1 (by decide), hfile 0 (by decide)⟩
